import Mathlib

/-!
Verification development for the llamator-mcp-server job lifecycle and
artifact-storage subsystem.

The definitions below shallowly embed the relevant Python source:
  - `src/llamator_mcp_server/infra/job_store.py` (JobStore and its record),
  - `src/llamator_mcp_server/worker_settings.py` (job executor, artifact
    upload retry loop, local cleanup, path safety),
  - `src/llamator_mcp_server/api/mcp_server.py` (synchronous tool-call path).

Machine-level details that do not affect the verified properties are
abstracted as follows: wall-clock timestamps become explicit `Nat` clock
arguments (the Python code stamps records with the current UTC time);
Python dictionaries become association lists; the Redis round trip of
`JobStore._set` / `JobStore.get` (JSON serialize then parse) is modelled as
storing and returning the record itself.
-/

/-- Job execution status, from `domain/models.py` (class JobStatus). -/
inductive JobStatus where
  | queued
  | running
  | succeeded
  | failed
deriving DecidableEq, Repr

/-- Aggregated metrics, Python type `dict[str, dict[str, int]]`. -/
abbrev AggMap := List (String × List (String × Int))

/-- Redacted request payload, Python type `dict[str, object]`; the stored
values are opaque to every verified operation, so entries are modelled as
string pairs. -/
abbrev ReqMap := List (String × String)

/-- Job result payload, from `domain/models.py` (class LlamatorJobResult). -/
structure LlamatorJobResult where
  aggregated : AggMap
  finished_at : Nat
deriving DecidableEq, Repr

/-- Job error payload, from `domain/models.py` (class LlamatorJobError). -/
structure LlamatorJobError where
  error_type : String
  message : String
  occurred_at : Nat
deriving DecidableEq, Repr

/-- Job record, from `domain/models.py` (class LlamatorJobInfo). -/
structure LlamatorJobInfo where
  job_id : String
  status : JobStatus
  created_at : Nat
  updated_at : Nat
  request : ReqMap
  result : Option LlamatorJobResult
  error : Option LlamatorJobError
  error_notice : Option String
deriving DecidableEq, Repr

/-- From `infra/job_store.py`, function `_build_error_notice`: the notice is
"error_type: message" when the message is non-empty (Python string
truthiness), else just "error_type". -/
def build_error_notice (error_type : String) (message : String) : String :=
  if message = "" then error_type else error_type ++ ": " ++ message

/-- From `infra/job_store.py`, method `JobStore.create`: a fresh record at
status QUEUED with both result and error unset. `t` is the current clock. -/
def JobStore.create (t : Nat) (job_id : String) (request_redacted : ReqMap) : LlamatorJobInfo :=
  { job_id := job_id
    status := JobStatus.queued
    created_at := t
    updated_at := t
    request := request_redacted
    result := none
    error := none
    error_notice := none }

/-- From `infra/job_store.py`, method `JobStore.update_status`: copy the
record with the new status and a fresh `updated_at`. On a missing record the
method raises KeyError and the stored state is unchanged. -/
def JobStore.update_status (t : Nat) (st : Option LlamatorJobInfo) (status : JobStatus) :
    Option LlamatorJobInfo :=
  match st with
  | none => none
  | some info => some { info with status := status, updated_at := t }

/-- From `infra/job_store.py`, method `JobStore.set_result`: sets status to
SUCCEEDED, stores the result, and clears error and error_notice. -/
def JobStore.set_result (t : Nat) (st : Option LlamatorJobInfo) (aggregated : AggMap) :
    Option LlamatorJobInfo :=
  match st with
  | none => none
  | some info =>
      some { info with
        status := JobStatus.succeeded
        updated_at := t
        result := some { aggregated := aggregated, finished_at := t }
        error := none
        error_notice := none }

/-- From `infra/job_store.py`, method `JobStore.set_error`: sets status to
FAILED and stores error plus error_notice. Note the update dict of the
source does not touch `result`. -/
def JobStore.set_error (t : Nat) (st : Option LlamatorJobInfo) (error_type message : String) :
    Option LlamatorJobInfo :=
  match st with
  | none => none
  | some info =>
      some { info with
        status := JobStatus.failed
        updated_at := t
        error := some { error_type := error_type, message := message, occurred_at := t }
        error_notice := some (build_error_notice error_type message) }

/-- From `infra/job_store.py`, method `JobStore.get`: returns the stored
record, raising KeyError (modelled as `Except.error`) when absent. -/
def JobStore.get (st : Option LlamatorJobInfo) : Except Unit LlamatorJobInfo :=
  match st with
  | none => Except.error ()
  | some info => Except.ok info

/-- One JobStore operation on a single job key; the first argument of each
constructor is the clock value at the call. -/
inductive JobOp where
  | create (t : Nat) (job_id : String) (request_redacted : ReqMap)
  | update_status (t : Nat) (status : JobStatus)
  | set_result (t : Nat) (aggregated : AggMap)
  | set_error (t : Nat) (error_type message : String)
deriving DecidableEq, Repr

/-- Effect of one JobStore operation on the stored state of one job key. -/
def JobStore.step (st : Option LlamatorJobInfo) : JobOp → Option LlamatorJobInfo
  | JobOp.create t job_id req => some (JobStore.create t job_id req)
  | JobOp.update_status t status => JobStore.update_status t st status
  | JobOp.set_result t aggregated => JobStore.set_result t st aggregated
  | JobOp.set_error t et msg => JobStore.set_error t st et msg

/-- Run a sequence of JobStore operations against one job key. -/
def JobStore.run (st : Option LlamatorJobInfo) (ops : List JobOp) : Option LlamatorJobInfo :=
  ops.foldl JobStore.step st

/-- From `worker_settings.py`, function `_is_empty_aggregated_result`:
Python `not aggregated`, true exactly on the empty dict. -/
def is_empty_aggregated_result (aggregated : AggMap) : Bool :=
  aggregated.isEmpty

/-- Fixed message used by the empty-result branch of `_JobExecutor.execute`. -/
def emptyAggregatedMessage : String :=
  "No tests were executed; aggregated results are empty."

/-- Fixed error type used by the empty-result branch of
`_JobExecutor.execute`. -/
def emptyAggregatedErrorType : String :=
  "EmptyAggregatedResultError"

/-- Observable steps of one `_JobExecutor.execute` invocation, in the order
the source performs them. -/
inductive ExecEvent where
  | setRunning
  | engineRun
  | uploadAttempt (job_status : String)
  | persistResult (aggregated : AggMap)
  | persistError (error_type message : String)
  | cleanupLocal
deriving DecidableEq, Repr

/-- Outcome of the external engine call (`LlamatorRunner.run` followed by
`_validate_start_testing_result`): either a validated aggregated map or a
raised exception with its type name and message. -/
inductive EngineOutcome where
  | success (aggregated : AggMap)
  | raises (exc_type exc_msg : String)
deriving DecidableEq, Repr

/-- From `worker_settings.py`, method `_JobExecutor.execute`, modelled from
the point where the payload parsed successfully and the artifacts lifecycle
object exists. `uploadOk` abstracts the boolean returned by
`_ArtifactsLifecycle.upload`. The returned pair is the ordered event trace
and the invocation outcome: `Except.ok` for a normal return with its
aggregated map, `Except.error` for a re-raised exception. The source order
per branch is: set status running, run the engine, attempt the upload,
persist the outcome, then (in the finally block) clean local files when the
upload succeeded. -/
def executorRun (engine : EngineOutcome) (uploadOk : Bool) :
    List ExecEvent × Except (String × String) AggMap :=
  match engine with
  | EngineOutcome.success aggregated =>
      if is_empty_aggregated_result aggregated then
        ([ExecEvent.setRunning, ExecEvent.engineRun,
          ExecEvent.uploadAttempt "failed",
          ExecEvent.persistError emptyAggregatedErrorType emptyAggregatedMessage]
          ++ (if uploadOk then [ExecEvent.cleanupLocal] else []),
         Except.ok [])
      else
        ([ExecEvent.setRunning, ExecEvent.engineRun,
          ExecEvent.uploadAttempt "succeeded",
          ExecEvent.persistResult aggregated]
          ++ (if uploadOk then [ExecEvent.cleanupLocal] else []),
         Except.ok aggregated)
  | EngineOutcome.raises et em =>
      ([ExecEvent.setRunning, ExecEvent.engineRun,
        ExecEvent.uploadAttempt "failed",
        ExecEvent.persistError et em]
        ++ (if uploadOk then [ExecEvent.cleanupLocal] else []),
       Except.error (et, em))

/-- Effect of one executor event on the stored job state: the three events
that reach the Job Store translate to the corresponding store methods, the
others leave the store untouched. -/
def applyExecEvent (st : Option LlamatorJobInfo) (t : Nat) : ExecEvent → Option LlamatorJobInfo
  | ExecEvent.setRunning => JobStore.update_status t st JobStatus.running
  | ExecEvent.persistResult aggregated => JobStore.set_result t st aggregated
  | ExecEvent.persistError et em => JobStore.set_error t st et em
  | _ => st

/-- Replay an executor event trace against the stored job state, using the
event position as the clock. -/
def replayExecEvents (st : Option LlamatorJobInfo) (tr : List ExecEvent) :
    Option LlamatorJobInfo :=
  (tr.foldl (fun p e => (applyExecEvent p.1 p.2 e, p.2 + 1)) (st, 0)).1

/-- Index of the first event satisfying a predicate, counting from `i`. -/
def firstIdxFrom (p : ExecEvent → Bool) : List ExecEvent → Nat → Option Nat
  | [], _ => none
  | e :: es, i => if p e then some i else firstIdxFrom p es (i + 1)

/-- Index of the first event satisfying a predicate. -/
def firstIdx (p : ExecEvent → Bool) (es : List ExecEvent) : Option Nat :=
  firstIdxFrom p es 0

/-- Recognizer of the status-to-running event. -/
def isSetRunningEvent : ExecEvent → Bool
  | ExecEvent.setRunning => true
  | _ => false

/-- Recognizer of the engine-invocation event. -/
def isEngineRunEvent : ExecEvent → Bool
  | ExecEvent.engineRun => true
  | _ => false

/-- Recognizer of the artifact-upload attempt event. -/
def isUploadEvent : ExecEvent → Bool
  | ExecEvent.uploadAttempt _ => true
  | _ => false

/-- Recognizer of the outcome-persistence events (set_result or set_error). -/
def isPersistEvent : ExecEvent → Bool
  | ExecEvent.persistResult _ => true
  | ExecEvent.persistError _ _ => true
  | _ => false

/-- Recognizer of the successful-result persistence event. -/
def isPersistResultEvent : ExecEvent → Bool
  | ExecEvent.persistResult _ => true
  | _ => false

/-- Retry loop body of `_ArtifactsLifecycle.upload`: attempts are numbered
from `attempt`, `fuel` attempts remain, and `backend i` tells whether the
call `upload_job_artifacts` on attempt `i` succeeds (true) or raises
(false). The loop returns true at the first success and false once the
attempts are exhausted. -/
def uploadAttemptsFrom (backend : Nat → Bool) : Nat → Nat → Bool
  | _, 0 => false
  | attempt, fuel + 1 =>
      if backend attempt then true else uploadAttemptsFrom backend (attempt + 1) fuel

/-- From `worker_settings.py`, method `_ArtifactsLifecycle.upload`: the
attempt count is `max 1 upload_max_retries` and attempts are numbered from
1; the inter-attempt sleep has no observable effect here. -/
def ArtifactsLifecycle.upload (backend : Nat → Bool) (upload_max_retries : Nat) : Bool :=
  uploadAttemptsFrom backend 1 (max 1 upload_max_retries)

/-- From `worker_settings.py`, method `_ArtifactsLifecycle.cleanup_local`:
returns whether the local job directory removal is performed, which the
source does exactly when `uploaded` is true (otherwise it returns early and
the local files remain). -/
def ArtifactsLifecycle.cleanup_local (uploaded : Bool) : Bool :=
  uploaded

/-- Split a character list on the slash separator. -/
def splitSlashAux : List Char → List Char → List String
  | [], acc => [String.mk acc.reverse]
  | c :: rest, acc =>
      if c = '/' then String.mk acc.reverse :: splitSlashAux rest []
      else splitSlashAux rest (c :: acc)

/-- The non-anchor parts of `PurePosixPath(s)`: split on slashes, then drop
empty components and single-dot components, exactly as the pathlib parser
normalizes them. -/
def posixComponents (s : String) : List String :=
  (splitSlashAux s.data []).filter (fun c => !(c = "" || c = "."))

/-- The `PurePosixPath.is_absolute` test: the raw string starts with a
slash. -/
def posixIsAbsolute (s : String) : Bool :=
  match s.data with
  | [] => false
  | c :: _ => c = '/'

/-- Join components with slashes, the inverse direction of the split. -/
def joinSlash : List String → String
  | [] => ""
  | [c] => c
  | c :: cs => c ++ "/" ++ joinSlash cs

/-- The string form `str(PurePosixPath(s))`: a leading slash for absolute
paths, the normalized components joined by slashes, and "." for a relative
path with no components. -/
def posixStr (s : String) : String :=
  if posixIsAbsolute s then "/" ++ joinSlash (posixComponents s)
  else
    match posixComponents s with
    | [] => "."
    | cs => joinSlash cs

/-- From `worker_settings.py` and `infra/artifacts/minio.py`, function
`_safe_posix_relpath`: reject when the path is absolute or has a ".."
component, reject when its normal form is "." or empty, otherwise accept
and return the normalized components. -/
def safe_posix_relpath (s : String) : Option (List String) :=
  if posixIsAbsolute s = true ∨ ".." ∈ posixComponents s then none
  else if posixStr s = "." ∨ posixStr s = "" then none
  else some (posixComponents s)

/-- POSIX-style resolution of relative components against a root directory
given as its own component list: ".." removes the last component, any other
component descends, mirroring `Path.resolve` without symlinks. -/
def resolveComponents (root : List String) (comps : List String) : List String :=
  comps.foldl (fun acc c => if c = ".." then acc.dropLast else acc ++ [c]) root

/-- From `api/mcp_server.py`, function `_is_terminal_status`. -/
def isTerminalStatus (status : JobStatus) : Bool :=
  status = JobStatus.succeeded || status = JobStatus.failed

/-- Errors raised by `_await_job_completion`: asyncio TimeoutError and the
KeyError propagated from `JobStore.get`. -/
inductive AwaitError where
  | timeout
  | notFound
deriving DecidableEq, Repr

/-- From `api/mcp_server.py`, function `_await_job_completion`: poll the
store, return the record once terminal, raise TimeoutError when the
deadline has passed. `getInfo k` is the record observed by the poll at step
`k`; `fuel` is how many further polls fit before the deadline (the real
deadline is wall-clock, abstracted to a poll budget). The second component
records every JobStore write the function issues, which is none: the source
only ever calls `store.get`. -/
def await_job_completion (getInfo : Nat → Except Unit LlamatorJobInfo) :
    Nat → Nat → Except AwaitError LlamatorJobInfo × List JobOp
  | fuel, k =>
    match getInfo k with
    | Except.error _ => (Except.error AwaitError.notFound, [])
    | Except.ok info =>
        if isTerminalStatus info.status then (Except.ok info, [])
        else
          match fuel with
          | 0 => (Except.error AwaitError.timeout, [])
          | f + 1 => await_job_completion getInfo f (k + 1)

/-- Errors raised by `_extract_aggregated_or_empty`: RuntimeError for a
succeeded record with no result (server-side inconsistency) and ValueError
for a non-terminal record (client-visible validation error). -/
inductive ExtractError where
  | runtimeMissingResult
  | valueNotFinished
deriving DecidableEq, Repr

/-- From `api/mcp_server.py`, function `_extract_aggregated_or_empty`:
succeeded records yield their aggregated map (RuntimeError when the result
is missing), failed records yield the empty map, non-terminal records raise
ValueError. -/
def extract_aggregated_or_empty (info : LlamatorJobInfo) :
    Except ExtractError AggMap :=
  if info.status = JobStatus.succeeded then
    match info.result with
    | none => Except.error ExtractError.runtimeMissingResult
    | some r => Except.ok r.aggregated
  else if info.status = JobStatus.failed then Except.ok []
  else Except.error ExtractError.valueNotFinished

/-- C1 counterexample: the claim says a record whose status is Succeeded can
never be moved out of that status, but running create, set_result, then
update_status to Running on the embedded store leaves the record at status
Running. The middle state after set_result really is Succeeded. -/
theorem c1_terminal_not_immutable_counterexample :
    (JobStore.run none
        [JobOp.create 0 "job-1" [],
         JobOp.set_result 1 [("attack", [("breached", 1)])]]).map
      (fun r => r.status) = some JobStatus.succeeded
  ∧ (JobStore.run none
        [JobOp.create 0 "job-1" [],
         JobOp.set_result 1 [("attack", [("breached", 1)])],
         JobOp.update_status 2 JobStatus.running]).map
      (fun r => r.status) = some JobStatus.running :=
  ⟨rfl, rfl⟩

/-- C1 amended: the store enforces no terminal-state guard. On any existing
record, set_result always yields status Succeeded and set_error always
yields status Failed (both terminal), while update_status stores exactly
the requested status unconditionally, so a terminal record can be moved
back to a non-terminal status by update_status. -/
theorem c1_store_transitions_unguarded (info : LlamatorJobInfo) (t : Nat) (s : JobStatus)
    (a : AggMap) (et em : String) :
    (JobStore.set_result t (some info) a).map (fun r => r.status) = some JobStatus.succeeded
  ∧ (JobStore.set_error t (some info) et em).map (fun r => r.status) = some JobStatus.failed
  ∧ (JobStore.update_status t (some info) s).map (fun r => r.status) = some s :=
  ⟨rfl, rfl, rfl⟩

/-- C2: evaluation of the embedded store at the failing input create,
set_result, set_error: the final record is terminal (Failed) yet both
result and error are non-null, because set_error does not clear the result
field, contradicting the claimed exactly-one invariant. -/
theorem c2_both_result_and_error_after_set_error :
    (JobStore.run none
        [JobOp.create 0 "job-1" [],
         JobOp.set_result 1 [("attack", [("breached", 1)])],
         JobOp.set_error 2 "Boom" "m"]).map
      (fun r => (r.status, r.result.isSome, r.error.isSome))
    = some (JobStatus.failed, true, true) :=
  rfl

/-- C6: on any existing record, set_result followed by get observes status
Succeeded with exactly the aggregated map passed in, and set_error followed
by get observes status Failed with error_notice "T: M" when the message M
is non-empty, else "T". -/
theorem c6_set_then_get_roundtrip (info : LlamatorJobInfo) (t : Nat) (A : AggMap)
    (T M : String) :
    (JobStore.get (JobStore.set_result t (some info) A)).map
        (fun r => (r.status, r.result.map (fun x => x.aggregated)))
      = Except.ok (JobStatus.succeeded, some A)
  ∧ (JobStore.get (JobStore.set_error t (some info) T M)).map
        (fun r => (r.status, r.error_notice))
      = Except.ok (JobStatus.failed, some (if M = "" then T else T ++ ": " ++ M)) :=
  ⟨rfl, rfl⟩

/-- C10: on any existing record, update_status followed by get observes a
record whose job_id, created_at, request, result, error and error_notice
are unchanged, while status is the requested one and updated_at is the
write-time clock. -/
theorem c10_update_status_frame (info : LlamatorJobInfo) (t : Nat) (s : JobStatus) :
    (JobStore.get (JobStore.update_status t (some info) s)).map
      (fun r =>
        (r.job_id, r.created_at, r.request, r.result, r.error, r.error_notice,
         r.status, r.updated_at))
    = Except.ok
        (info.job_id, info.created_at, info.request, info.result, info.error,
         info.error_notice, s, t) :=
  rfl

/-- C3 counterexample: the claim fixes the order persist-outcome before
artifact-upload, but on the successful run (non-empty aggregate, upload
succeeds) the executor trace has the upload attempt at position 2 and the
outcome persistence at position 3, so the upload happens first. -/
theorem c3_upload_precedes_persist_counterexample :
    firstIdx isUploadEvent
        (executorRun (EngineOutcome.success [("attack", [("breached", 1)])]) true).1
      = some 2
  ∧ firstIdx isPersistEvent
        (executorRun (EngineOutcome.success [("attack", [("breached", 1)])]) true).1
      = some 3 :=
  ⟨rfl, rfl⟩

/-- C3 amended: on every execution path the executor performs, in this fixed
order, status-to-Running, engine execution, the artifact upload attempt,
then outcome persistence (set_result or set_error), and finally local
cleanup exactly when the upload succeeded. -/
theorem c3_execution_order (engine : EngineOutcome) (uploadOk : Bool) :
    firstIdx isSetRunningEvent (executorRun engine uploadOk).1 = some 0
  ∧ firstIdx isEngineRunEvent (executorRun engine uploadOk).1 = some 1
  ∧ firstIdx isUploadEvent (executorRun engine uploadOk).1 = some 2
  ∧ firstIdx isPersistEvent (executorRun engine uploadOk).1 = some 3
  ∧ (ExecEvent.cleanupLocal ∈ (executorRun engine uploadOk).1 ↔ uploadOk = true) := by
  cases engine with
  | success a =>
      by_cases h : is_empty_aggregated_result a = true <;> cases uploadOk <;>
        simp [executorRun, h, firstIdx, firstIdxFrom, isSetRunningEvent, isEngineRunEvent,
          isUploadEvent, isPersistEvent]
  | raises et em =>
      cases uploadOk <;>
        simp [executorRun, firstIdx, firstIdxFrom, isSetRunningEvent, isEngineRunEvent,
          isUploadEvent, isPersistEvent]

/-- C4 counterexample: the claim says every domain execution error makes the
executor invocation terminate exceptionally, but on an empty aggregate
(with the upload succeeding) the executor persists the error and then
returns normally with an empty aggregated map. -/
theorem c4_empty_aggregate_returns_normally_counterexample :
    (executorRun (EngineOutcome.success []) true).2 = Except.ok []
  ∧ ExecEvent.persistError emptyAggregatedErrorType emptyAggregatedMessage
      ∈ (executorRun (EngineOutcome.success []) true).1 := by
  exact ⟨rfl, by simp [executorRun, is_empty_aggregated_result]⟩

/-- C4 amended: an engine exception is persisted as a Failed outcome and
re-raised out of the executor, so queue-level accounting observes it; an
empty aggregate is persisted as a Failed outcome too, but the executor then
returns normally with an empty aggregated map instead of raising. -/
theorem c4_domain_error_disposition (et em : String) (u1 u2 : Bool) :
    ((executorRun (EngineOutcome.raises et em) u1).2 = Except.error (et, em)
      ∧ ExecEvent.persistError et em ∈ (executorRun (EngineOutcome.raises et em) u1).1)
  ∧ ((executorRun (EngineOutcome.success []) u2).2 = Except.ok []
      ∧ ExecEvent.persistError emptyAggregatedErrorType emptyAggregatedMessage
          ∈ (executorRun (EngineOutcome.success []) u2).1) := by
  cases u1 <;> cases u2 <;> simp [executorRun, is_empty_aggregated_result]

/-- C5: when the engine returns the empty aggregate, replaying the executor
trace against any existing record leaves the job Failed with error_type
EmptyAggregatedResultError, the artifact upload is still attempted with the
failed marker, and no successful-result persistence occurs anywhere in the
trace, so the job never ends Succeeded. -/
theorem c5_empty_aggregate_is_failure (info : LlamatorJobInfo) (uploadOk : Bool) :
    (replayExecEvents (some info) (executorRun (EngineOutcome.success []) uploadOk).1).map
        (fun r => (r.status, r.error.map (fun e => e.error_type)))
      = some (JobStatus.failed, some emptyAggregatedErrorType)
  ∧ ExecEvent.uploadAttempt "failed" ∈ (executorRun (EngineOutcome.success []) uploadOk).1
  ∧ (executorRun (EngineOutcome.success []) uploadOk).1.all
      (fun e => !isPersistResultEvent e) = true := by
  cases uploadOk <;>
    simp [executorRun, is_empty_aggregated_result, replayExecEvents, applyExecEvent,
      JobStore.update_status, JobStore.set_error, isPersistResultEvent]

/-- Resolution of components that contain no ".." simply appends them to
the root. -/
theorem resolveComponents_no_dotdot (comps : List String) :
    ".." ∉ comps → ∀ root : List String, resolveComponents root comps = root ++ comps := by
  induction comps with
  | nil =>
      intro _ root
      simp [resolveComponents]
  | cons c cs ih =>
      intro hnd root
      have hc : ¬ c = ".." := by
        intro h
        exact hnd (by simp [h])
      have hcs : ".." ∉ cs := by
        intro h
        exact hnd (List.mem_cons_of_mem c h)
      have h1 : resolveComponents root (c :: cs) = resolveComponents (root ++ [c]) cs := by
        simp [resolveComponents, hc]
      rw [h1, ih hcs]
      simp

/-- C7: the shared path-safety check rejects every absolute candidate, every
candidate with a ".." component, and every candidate normalizing to "." or
empty; any accepted candidate has a non-empty ".."-free component list, so
resolving it against any root yields a strict descendant of the root: the
root extended by the components, of which the root is a proper prefix. -/
theorem c7_path_safety (s : String) (root comps : List String) :
    (posixIsAbsolute s = true → safe_posix_relpath s = none)
  ∧ (".." ∈ posixComponents s → safe_posix_relpath s = none)
  ∧ (posixStr s = "." ∨ posixStr s = "" → safe_posix_relpath s = none)
  ∧ (safe_posix_relpath s = some comps →
      comps ≠ []
        ∧ resolveComponents root comps = root ++ comps
        ∧ root <+: resolveComponents root comps
        ∧ resolveComponents root comps ≠ root) := by
  refine ⟨?_, ?_, ?_, ?_⟩
  · intro h
    simp [safe_posix_relpath, h]
  · intro h
    simp [safe_posix_relpath, h]
  · intro h
    unfold safe_posix_relpath
    by_cases h1 : posixIsAbsolute s = true ∨ ".." ∈ posixComponents s
    · simp [h1]
    · simp [h1, h]
  · intro h
    unfold safe_posix_relpath at h
    by_cases h1 : posixIsAbsolute s = true ∨ ".." ∈ posixComponents s
    · simp [h1] at h
    · by_cases h2 : posixStr s = "." ∨ posixStr s = ""
      · simp [h1, h2] at h
      · simp [h1, h2] at h
        have hnd : ".." ∉ comps := by
          rw [← h]
          intro hm
          exact h1 (Or.inr hm)
        have habs : posixIsAbsolute s = false := by
          cases hb : posixIsAbsolute s with
          | false => rfl
          | true => exact absurd (Or.inl hb) h1
        have hne : comps ≠ [] := by
          intro hnil
          apply h2
          left
          rw [← h] at hnil
          simp [posixStr, habs, hnil]
        have hres : resolveComponents root comps = root ++ comps :=
          resolveComponents_no_dotdot comps hnd root
        refine ⟨hne, hres, ?_, ?_⟩
        · rw [hres]
          exact List.prefix_append root comps
        · rw [hres]
          intro heq
          have hlen := congrArg List.length heq
          simp [List.length_append] at hlen
          exact hne hlen

/-- C7 witness: concrete evaluations through the main theorem: an absolute
path, a ".." traversal and the bare dot are rejected, and the accepted path
"reports/run.zip" resolves to a strict descendant of the root. -/
theorem c7_path_safety_witness :
    safe_posix_relpath "/etc/passwd" = none
  ∧ safe_posix_relpath "a/../b" = none
  ∧ safe_posix_relpath "." = none
  ∧ ["base"] <+: resolveComponents ["base"] ["reports", "run.zip"]
  ∧ resolveComponents ["base"] ["reports", "run.zip"] ≠ ["base"] :=
  ⟨(c7_path_safety "/etc/passwd" [] []).1 (by decide),
   (c7_path_safety "a/../b" [] []).2.1 (by decide),
   (c7_path_safety "." [] []).2.2.1 (Or.inl (by decide)),
   ((c7_path_safety "reports/run.zip" ["base"] ["reports", "run.zip"]).2.2.2
      (by decide)).2.2.1,
   ((c7_path_safety "reports/run.zip" ["base"] ["reports", "run.zip"]).2.2.2
      (by decide)).2.2.2⟩

/-- The retry loop reports success as soon as some attempt within the
budget succeeds. -/
theorem uploadAttemptsFrom_succeeds (backend : Nat → Bool) :
    ∀ fuel attempt k, k < fuel → backend (attempt + k) = true →
      uploadAttemptsFrom backend attempt fuel = true := by
  intro fuel
  induction fuel with
  | zero =>
      intro attempt k hk
      omega
  | succ f ih =>
      intro attempt k hk hb
      unfold uploadAttemptsFrom
      by_cases h : backend attempt = true
      · simp [h]
      · simp [h]
        cases k with
        | zero =>
            rw [Nat.add_zero] at hb
            exact absurd hb h
        | succ k0 =>
            apply ih (attempt + 1) k0 (by omega)
            have harith : attempt + 1 + k0 = attempt + (k0 + 1) := by omega
            rw [harith]
            exact hb

/-- The retry loop reports failure when every attempt fails. -/
theorem uploadAttemptsFrom_all_fail (backend : Nat → Bool) (hb : ∀ i, backend i = false) :
    ∀ fuel attempt, uploadAttemptsFrom backend attempt fuel = false := by
  intro fuel
  induction fuel with
  | zero =>
      intro attempt
      rfl
  | succ f ih =>
      intro attempt
      simp [uploadAttemptsFrom, hb attempt]
      exact ih (attempt + 1)

/-- C8: upload retry is bounded by `max 1 upload_max_retries` attempts. With
a backend that fails on every attempt before `n` and succeeds on attempt
`n` within the budget, upload reports success and local cleanup runs; with
a backend that always fails, upload reports failure and cleanup is skipped
so local files remain. In the executor, the finally-block cleanup event is
present exactly when the upload reported success. -/
theorem c8_upload_retry_and_cleanup (good bad : Nat → Bool) (maxRetries n : Nat)
    (engine : EngineOutcome) :
    (1 ≤ n → n ≤ max 1 maxRetries → (∀ i, 1 ≤ i → i < n → good i = false) →
      good n = true →
        ArtifactsLifecycle.upload good maxRetries = true
          ∧ ArtifactsLifecycle.cleanup_local true = true)
  ∧ ((∀ i, bad i = false) →
        ArtifactsLifecycle.upload bad maxRetries = false
          ∧ ArtifactsLifecycle.cleanup_local false = false)
  ∧ (ExecEvent.cleanupLocal ∈ (executorRun engine true).1
      ∧ ExecEvent.cleanupLocal ∉ (executorRun engine false).1) := by
  refine ⟨?_, ?_, ?_⟩
  · intro h1 h2 _ hsucc
    refine ⟨?_, rfl⟩
    apply uploadAttemptsFrom_succeeds good (max 1 maxRetries) 1 (n - 1) (by omega)
    have harith : 1 + (n - 1) = n := by omega
    rw [harith]
    exact hsucc
  · intro hb
    exact ⟨uploadAttemptsFrom_all_fail bad hb (max 1 maxRetries) 1, rfl⟩
  · cases engine with
    | success a =>
        by_cases h : is_empty_aggregated_result a = true <;>
          simp [executorRun, h]
    | raises et em =>
        simp [executorRun]

/-- C8 witness: a backend that fails on attempt 1 and succeeds on attempt 2
out of 3 leads to a successful upload with cleanup, an always-failing
backend leads to a failed upload with cleanup skipped, and the executor
emits the cleanup event exactly on the successful-upload side. -/
theorem c8_upload_retry_witness :
    (ArtifactsLifecycle.upload (fun i => decide (2 ≤ i)) 3 = true
      ∧ ArtifactsLifecycle.cleanup_local true = true)
  ∧ (ArtifactsLifecycle.upload (fun _ => false) 3 = false
      ∧ ArtifactsLifecycle.cleanup_local false = false)
  ∧ (ExecEvent.cleanupLocal ∈ (executorRun (EngineOutcome.raises "Boom" "m") true).1
      ∧ ExecEvent.cleanupLocal ∉ (executorRun (EngineOutcome.raises "Boom" "m") false).1) :=
  ⟨(c8_upload_retry_and_cleanup (fun i => decide (2 ≤ i)) (fun _ => false) 3 2
      (EngineOutcome.raises "Boom" "m")).1
      (by decide) (by decide)
      (fun i hi1 hi2 => by
        have hi : i = 1 := by omega
        rw [hi]
        rfl)
      (by decide),
   (c8_upload_retry_and_cleanup (fun i => decide (2 ≤ i)) (fun _ => false) 3 2
      (EngineOutcome.raises "Boom" "m")).2.1 (fun i => rfl),
   (c8_upload_retry_and_cleanup (fun i => decide (2 ≤ i)) (fun _ => false) 3 2
      (EngineOutcome.raises "Boom" "m")).2.2⟩

/-- C9: the synchronous tool-call path polls the store until terminal or the
poll budget is exhausted and issues no store writes: a normal return always
carries a terminal record, a run in which every poll within the budget sees
a non-terminal record ends in the distinct timeout error with an empty
write log, and the result mapping sends Failed records to the empty map,
Succeeded records with a result to the stored aggregated map, and Succeeded
records without a result to the server-side RuntimeError rather than the
client-facing ValueError. -/
theorem c9_sync_tool_call_contract :
    (∀ (g : Nat → Except Unit LlamatorJobInfo) (fuel k : Nat) (info : LlamatorJobInfo)
        (w : List JobOp),
        await_job_completion g fuel k = (Except.ok info, w) →
          isTerminalStatus info.status = true ∧ w = [])
  ∧ (∀ (g : Nat → Except Unit LlamatorJobInfo) (fuel k : Nat),
        (∀ j, j ≤ fuel →
          ∃ i, g (k + j) = Except.ok i ∧ isTerminalStatus i.status = false) →
        await_job_completion g fuel k = (Except.error AwaitError.timeout, []))
  ∧ (∀ jid ca ua req res err en,
        extract_aggregated_or_empty
          ⟨jid, JobStatus.failed, ca, ua, req, res, err, en⟩ = Except.ok [])
  ∧ (∀ jid ca ua req r err en,
        extract_aggregated_or_empty
            ⟨jid, JobStatus.succeeded, ca, ua, req, some r, err, en⟩
          = Except.ok r.aggregated)
  ∧ (∀ jid ca ua req err en,
        extract_aggregated_or_empty
            ⟨jid, JobStatus.succeeded, ca, ua, req, none, err, en⟩
          = Except.error ExtractError.runtimeMissingResult) := by
  refine ⟨?_, ?_, ?_, ?_, ?_⟩
  · intro g fuel
    induction fuel with
    | zero =>
        intro k info w h
        rw [await_job_completion] at h
        cases hg : g k with
        | error e =>
            rw [hg] at h
            simp at h
        | ok i =>
            rw [hg] at h
            by_cases ht : isTerminalStatus i.status = true
            · simp [ht] at h
              exact ⟨h.1 ▸ ht, h.2⟩
            · simp [ht] at h
    | succ f ih =>
        intro k info w h
        rw [await_job_completion] at h
        cases hg : g k with
        | error e =>
            rw [hg] at h
            simp at h
        | ok i =>
            rw [hg] at h
            by_cases ht : isTerminalStatus i.status = true
            · simp [ht] at h
              exact ⟨h.1 ▸ ht, h.2⟩
            · simp [ht] at h
              exact ih (k + 1) info w h
  · intro g fuel
    induction fuel with
    | zero =>
        intro k h
        obtain ⟨i, hg, ht⟩ := h 0 (Nat.le_refl 0)
        rw [Nat.add_zero] at hg
        rw [await_job_completion, hg]
        simp [ht]
    | succ f ih =>
        intro k h
        obtain ⟨i, hg, ht⟩ := h 0 (by omega)
        rw [Nat.add_zero] at hg
        rw [await_job_completion, hg]
        simp [ht]
        apply ih (k + 1)
        intro j hj
        obtain ⟨i2, hg2, ht2⟩ := h (j + 1) (by omega)
        refine ⟨i2, ?_, ht2⟩
        have harith : k + 1 + j = k + (j + 1) := by omega
        rw [harith]
        exact hg2
  · intro jid ca ua req res err en
    rfl
  · intro jid ca ua req r err en
    rfl
  · intro jid ca ua req err en
    rfl

/-- C9 witness: a store that always reports a queued record times out after
the poll budget with no writes issued; a first poll that reports a failed
record returns it, and the mapping of that terminal record is the empty
aggregated map. -/
theorem c9_sync_tool_call_witness :
    await_job_completion
        (fun _ => Except.ok ⟨"job-1", JobStatus.queued, 0, 0, [], none, none, none⟩) 1 0
      = (Except.error AwaitError.timeout, [])
  ∧ isTerminalStatus
      (LlamatorJobInfo.mk "job-1" JobStatus.failed 0 1 [] none none none).status = true
  ∧ extract_aggregated_or_empty
      ⟨"job-1", JobStatus.failed, 0, 1, [], none, none, none⟩ = Except.ok [] :=
  ⟨c9_sync_tool_call_contract.2.1
      (fun _ => Except.ok ⟨"job-1", JobStatus.queued, 0, 0, [], none, none, none⟩) 1 0
      (fun j hj =>
        ⟨⟨"job-1", JobStatus.queued, 0, 0, [], none, none, none⟩, rfl, rfl⟩),
   (c9_sync_tool_call_contract.1
      (fun _ => Except.ok ⟨"job-1", JobStatus.failed, 0, 1, [], none, none, none⟩) 0 0
      ⟨"job-1", JobStatus.failed, 0, 1, [], none, none, none⟩ [] (by rfl)).1,
   c9_sync_tool_call_contract.2.2.1 "job-1" 0 1 [] none none none⟩
